import Mathlib

/-!
Verification of the serverless-snacks order pipeline.

Shallow embedding of the two Lambda handlers
(`src/lambdas/order_creator.py` and `src/lambdas/order_processor.py`)
and of the dead-letter-queue alarm configuration
(`src/serverless_snacks/serverless_snacks_stack.py`).

The DynamoDB orders table is modelled as an association list keyed by
`orderId`; the conditional `put_item` / `update_item` calls become
conditional operations on that list.  Environment faults of the managed
services (store connectivity errors, publish failures) are injected as
boolean parameters, since the handlers branch on them via `ClientError`
exception codes.  The JSON decoding done by the Python stdlib `loads` is
not repository code, so the decode outcome of a string body is part of
the input; the only fact about `loads` baked in is that the default
body string of the creator handler decodes to the empty JSON object.
-/

namespace SnacksSpec

/-- Order status stored in the `status` attribute. -/
inductive Status where
  | NEW
  | PROCESSED
  deriving DecidableEq, Repr

/-- The non-key attributes of a stored order record
(`put_item` writes `orderId`, `status` and `item`). -/
structure Rec where
  status : Status
  item : String
  deriving DecidableEq, Repr

/-- The orders table: association list from `orderId` to record. -/
def Store := List (String × Rec)

instance : DecidableEq Store := by
  unfold Store
  infer_instance

/-- Key lookup, first match wins (DynamoDB keys are unique). -/
def lookup : Store → String → Option Rec
  | [], _ => none
  | (k, r) :: rest, id => if k = id then some r else lookup rest id

/-- Unconditional write of a record for a key, as `put_item` performs
once its condition expression passed. -/
def insertRec (s : Store) (id : String) (r : Rec) : Store :=
  (id, r) :: s

/-- The effect of `update_item` with `SET #status = :status`: only the
`status` attribute of the record under the key changes, `item` is kept. -/
def updateStatus : Store → String → Status → Store
  | [], _, _ => []
  | (k, r) :: rest, id, st =>
      if k = id then (k, { r with status := st }) :: rest
      else (k, r) :: updateStatus rest id st

/-- Projection of a request body JSON object onto the two fields the
creator handler reads: `order.get("orderId")` and `order.get("item")`.
`none` models an absent key. -/
structure JsonVal where
  orderId : Option String
  item : Option String
  deriving DecidableEq, Repr

/-- The `"body"` entry of the creator event, line 32 of
`order_creator.py`: absent, a string (carrying its JSON-decode
outcome, since `loads` is stdlib), or already a dict. -/
inductive ReqBody where
  | missing
  | raw (decoded : Except Unit JsonVal)
  | dict (v : JsonVal)

/-- Lines 32-34 of `order_creator.py`:
`body = event.get("body", "{}")` followed by
`order = loads(body) if isinstance(body, str) else body`.
A missing body defaults to the string of an empty JSON object, whose
decode is the empty object; a string body yields its decode outcome;
a dict body is used as is. -/
def parseBody : ReqBody → Except Unit JsonVal
  | .missing => .ok ⟨none, none⟩
  | .raw d => d
  | .dict v => .ok v

/-- Body of a handler response after `dumps`: either an error object
with a message, or an order object with `orderId` and `status`. -/
inductive RespBody where
  | err (msg : String)
  | order (orderId : String) (status : Status)
  deriving DecidableEq, Repr

/-- A handler response dict with `statusCode` and `body`. -/
structure Response where
  statusCode : Nat
  body : RespBody
  deriving DecidableEq, Repr

/-- One entry passed to `events_client.put_events` (lines 72-81 of
`order_creator.py`). -/
structure PublishedEvent where
  source : String
  detailType : String
  detailOrderId : String
  detailItem : String
  eventBusName : String
  deriving DecidableEq, Repr

/-- Result of one creator invocation: the response, the table after the
call, and the list of publish calls made. -/
structure CreateResult where
  resp : Response
  store : Store
  published : List PublishedEvent

/-- Python truthiness test `if not table_name` on
`environ.get("TABLE_NAME")`: true when the variable is unset or empty. -/
def badTable : Option String → Prop
  | none => True
  | some t => t = ""

instance : DecidablePred badTable := by
  intro t
  unfold badTable
  cases t <;> infer_instance

/-- `src/lambdas/order_creator.py`, `handler`.  `putErr` injects a
`ClientError` other than `ConditionalCheckFailedException` on
`put_item`; `publishErr` injects a `ClientError` on `put_events`. -/
def creatorHandler (tableName : Option String) (body : ReqBody)
    (store : Store) (putErr : Bool) (publishErr : Bool) : CreateResult :=
  if badTable tableName then
    ⟨⟨500, .err "Server misconfiguration"⟩, store, []⟩
  else
    match parseBody body with
    | .error _ => ⟨⟨400, .err "Invalid JSON in request body"⟩, store, []⟩
    | .ok order =>
      match order.orderId with
      | none => ⟨⟨400, .err "Missing \x27orderId\x27 in request"⟩, store, []⟩
      | some oid =>
        if oid = "" then
          ⟨⟨400, .err "Missing \x27orderId\x27 in request"⟩, store, []⟩
        else
          let item := order.item.getD "unknown"
          if putErr then
            ⟨⟨500, .err "Internal server error"⟩, store, []⟩
          else
            match lookup store oid with
            | some _ => ⟨⟨409, .err "Order already exists"⟩, store, []⟩
            | none =>
              let store1 := insertRec store oid ⟨.NEW, item⟩
              if publishErr then
                ⟨⟨502, .err "Failed to publish event"⟩, store1, []⟩
              else
                ⟨⟨200, .order oid .NEW⟩, store1,
                  [⟨"serverless.snacks", "OrderCreated", oid, item,
                    "OrderEventBus"⟩]⟩

/-- The `detail` payload of a processing event, projected onto the one
field the processor reads. -/
structure ProcDetail where
  orderId : Option String
  deriving DecidableEq, Repr

/-- A processing event envelope: `event.get("detail")`. -/
structure ProcEvent where
  detail : Option ProcDetail
  deriving DecidableEq, Repr

/-- The exception re-raised by the processor handler (line 149 of
`order_processor.py`): a failed existence condition or another
`ClientError` from `update_item`. -/
inductive ProcFault where
  | notFound
  | storeError
  deriving DecidableEq, Repr

/-- Lines 124-125 of `order_processor.py`:
`order = event.get("detail")` and
`order_id = order.get("orderId") if order else None`. -/
def eventOrderId (event : ProcEvent) : Option String :=
  match event.detail with
  | some d => d.orderId
  | none => none

/-- `src/lambdas/order_processor.py`, `handler`.  `updateErr` injects a
`ClientError` other than `ConditionalCheckFailedException` on
`update_item`.  An `Except.error` outcome is the handler raising; the
returned store is the table after the call. -/
def processorHandler (tableName : Option String) (event : ProcEvent)
    (store : Store) (updateErr : Bool) :
    Except ProcFault Response × Store :=
  if badTable tableName then
    (.ok ⟨500, .err "Server misconfiguration"⟩, store)
  else
    match eventOrderId event with
    | none => (.ok ⟨400, .err "Invalid event payload"⟩, store)
    | some oid =>
      if oid = "" then
        (.ok ⟨400, .err "Invalid event payload"⟩, store)
      else if updateErr then
        (.error .storeError, store)
      else
        match lookup store oid with
        | none => (.error .notFound, store)
        | some _ =>
          (.ok ⟨200, .order oid .PROCESSED⟩,
            updateStatus store oid .PROCESSED)

/-- One invocation of either handler, with its inputs and injected
faults. -/
inductive Invocation where
  | create (tableName : Option String) (body : ReqBody)
      (putErr publishErr : Bool)
  | process (tableName : Option String) (event : ProcEvent)
      (updateErr : Bool)

/-- The table after one handler invocation (a raise leaves the table as
the failed conditional write left it: unchanged). -/
def stepStore (store : Store) : Invocation → Store
  | .create tn b pe be => (creatorHandler tn b store pe be).store
  | .process tn ev ue => (processorHandler tn ev store ue).2

/-- Lifecycle phase of an `orderId` in the table:
0 for no record, 1 for `NEW`, 2 for `PROCESSED`. -/
def phase (s : Store) (id : String) : Nat :=
  match lookup s id with
  | none => 0
  | some r =>
    match r.status with
    | .NEW => 1
    | .PROCESSED => 2

/-- The comparison operator configured on the DLQ alarm. -/
inductive ComparisonOperator where
  | GreaterThanOrEqualToThreshold
  deriving DecidableEq, Repr

/-- The trigger rule of a CloudWatch alarm, as configured. -/
structure AlarmRule where
  evaluationPeriods : Nat
  threshold : Nat
  comparisonOperator : ComparisonOperator
  deriving DecidableEq, Repr

/-- The `DLQAlarm` of `serverless_snacks_stack.py` (lines 56-63):
one evaluation period, threshold 5, greater-than-or-equal comparison. -/
def dlqAlarm : AlarmRule :=
  ⟨1, 5, .GreaterThanOrEqualToThreshold⟩

/-- Whether an alarm rule fires for an observed metric value within one
evaluation period. -/
def alarmFires (a : AlarmRule) (count : Nat) : Bool :=
  match a.comparisonOperator with
  | .GreaterThanOrEqualToThreshold => a.threshold ≤ count

/-! ### Store lemmas -/

theorem lookup_insert_self (s : Store) (id : String) (r : Rec) :
    lookup (insertRec s id r) id = some r := by
  simp [insertRec, lookup]

theorem lookup_insert_ne (s : Store) (id id2 : String) (r : Rec)
    (h : id ≠ id2) : lookup (insertRec s id r) id2 = lookup s id2 := by
  simp [insertRec, lookup, h]

theorem lookup_update (s : Store) (id : String) (st : Status) :
    lookup (updateStatus s id st) id
      = (lookup s id).map (fun r => { r with status := st }) := by
  induction s with
  | nil => simp [updateStatus, lookup]
  | cons hd tl ih =>
    obtain ⟨k, r⟩ := hd
    by_cases hk : k = id
    · simp [updateStatus, lookup, hk]
    · simp [updateStatus, lookup, hk, ih]

theorem lookup_update_ne (s : Store) (id id2 : String) (st : Status)
    (h : id ≠ id2) :
    lookup (updateStatus s id st) id2 = lookup s id2 := by
  induction s with
  | nil => simp [updateStatus]
  | cons hd tl ih =>
    obtain ⟨k, r⟩ := hd
    by_cases hk : k = id
    · subst hk
      simp [updateStatus, lookup, h]
    · simp [updateStatus, lookup, hk, ih]

/-- Every creator invocation either leaves the table untouched or
inserts one fresh `NEW` record under a previously absent key. -/
theorem creator_store_shape (tn : Option String) (b : ReqBody)
    (st : Store) (pe be : Bool) :
    (creatorHandler tn b st pe be).store = st
    ∨ ∃ oid it, lookup st oid = none
        ∧ (creatorHandler tn b st pe be).store
            = insertRec st oid ⟨.NEW, it⟩ := by
  unfold creatorHandler
  repeat' split
  all_goals first
    | (left; rfl)
    | (right; exact ⟨_, _, by assumption, rfl⟩)

/-- Every processor invocation either leaves the table untouched or
sets the status of one existing record to `PROCESSED`. -/
theorem processor_store_shape (tn : Option String) (ev : ProcEvent)
    (st : Store) (ue : Bool) :
    (processorHandler tn ev st ue).2 = st
    ∨ ∃ oid r, lookup st oid = some r
        ∧ (processorHandler tn ev st ue).2
            = updateStatus st oid .PROCESSED := by
  unfold processorHandler
  repeat' split
  all_goals first
    | (left; rfl)
    | (right; exact ⟨_, _, by assumption, rfl⟩)

/-- C9: the DLQ alarm rule fires within one evaluation period exactly
when the observed dead-letter message count is at least the configured
threshold 5; in particular it fires at 5 and not at 4. -/
theorem dlq_alarm_threshold :
    (∀ count : Nat, alarmFires dlqAlarm count = decide (5 ≤ count))
    ∧ alarmFires dlqAlarm 5 = true
    ∧ alarmFires dlqAlarm 4 = false
    ∧ dlqAlarm.evaluationPeriods = 1 :=
  ⟨fun _ => rfl, rfl, rfl, rfl⟩

/-- C8: with `TABLE_NAME` unset or empty, both handlers return status
500 without raising, leave the table untouched and publish nothing,
whatever the payload is — in the creator the check precedes parsing,
so even a malformed body yields 500. -/
theorem missing_table_name (tn : Option String) (h : badTable tn)
    (body : ReqBody) (st : Store) (pe be : Bool)
    (ev : ProcEvent) (ue : Bool) :
    creatorHandler tn body st pe be
      = ⟨⟨500, .err "Server misconfiguration"⟩, st, []⟩
    ∧ processorHandler tn ev st ue
      = (.ok ⟨500, .err "Server misconfiguration"⟩, st) := by
  constructor <;> simp [creatorHandler, processorHandler, if_pos h]

/-- C8 witness: both handlers at an unset table name, a malformed
creator body and an arbitrary processing event. -/
theorem missing_table_name_witness :
    creatorHandler none (.raw (.error ())) [] true true
      = ⟨⟨500, .err "Server misconfiguration"⟩, [], []⟩
    ∧ processorHandler none ⟨some ⟨some "123"⟩⟩ [] false
      = (.ok ⟨500, .err "Server misconfiguration"⟩, []) :=
  missing_table_name none trivial (.raw (.error ())) [] true true
    ⟨some ⟨some "123"⟩⟩ false

/-- C10: a creator event with no `body` key is treated as the empty
JSON object: the handler does not raise, falls through to the
`orderId` check, and returns 400 with the table untouched and nothing
published. -/
theorem creator_body_key_absent (tn : Option String)
    (h : ¬ badTable tn) (st : Store) (pe be : Bool) :
    creatorHandler tn ReqBody.missing st pe be
      = ⟨⟨400, .err "Missing \x27orderId\x27 in request"⟩, st, []⟩ := by
  simp [creatorHandler, parseBody, if_neg h]

/-- C10 witness: a configured handler with no body key returns 400 and
has no effects. -/
theorem creator_body_key_absent_witness :
    creatorHandler (some "Orders") ReqBody.missing [] false false
      = ⟨⟨400, .err "Missing \x27orderId\x27 in request"⟩, [], []⟩ :=
  creator_body_key_absent (some "Orders") (by simp [badTable]) [] false false

/-- C7: validation failures yield 400 with no side effects in both
handlers: a creator body that fails JSON decoding gives 400 with a
message containing "Invalid JSON"; a body decoding to an object whose
`orderId` is absent or empty gives 400 with a message containing
"orderId"; a processing event whose `detail` or `detail.orderId` is
missing gives a returned (not raised) 400; the table is untouched and
nothing is published in every case. -/
theorem validation_failures (tn : Option String) (h : ¬ badTable tn)
    (st : Store) (pe be ue : Bool) (e : Unit) (body : ReqBody)
    (order : JsonVal) (hb : parseBody body = .ok order)
    (ho : order.orderId = none ∨ order.orderId = some "") :
    creatorHandler tn (.raw (.error e)) st pe be
      = ⟨⟨400, .err "Invalid JSON in request body"⟩, st, []⟩
    ∧ (∃ p q, "Invalid JSON in request body" = p ++ "Invalid JSON" ++ q)
    ∧ creatorHandler tn body st pe be
      = ⟨⟨400, .err "Missing \x27orderId\x27 in request"⟩, st, []⟩
    ∧ (∃ p q, "Missing \x27orderId\x27 in request" = p ++ "orderId" ++ q)
    ∧ processorHandler tn ⟨none⟩ st ue
      = (.ok ⟨400, .err "Invalid event payload"⟩, st)
    ∧ processorHandler tn ⟨some ⟨none⟩⟩ st ue
      = (.ok ⟨400, .err "Invalid event payload"⟩, st) := by
  refine ⟨?_, ⟨"", " in request body", rfl⟩, ?_,
    ⟨"Missing \x27", "\x27 in request", rfl⟩, ?_, ?_⟩
  · simp [creatorHandler, parseBody, if_neg h]
  · rcases ho with ho | ho <;>
      simp [creatorHandler, hb, ho, if_neg h]
  · simp [processorHandler, eventOrderId, if_neg h]
  · simp [processorHandler, eventOrderId, if_neg h]

/-- C7 witness: the three creator validation failures and the two
processor ones at concrete inputs. -/
theorem validation_failures_witness :
    creatorHandler (some "Orders") (.raw (.error ())) [] false false
      = ⟨⟨400, .err "Invalid JSON in request body"⟩, [], []⟩
    ∧ (∃ p q, "Invalid JSON in request body" = p ++ "Invalid JSON" ++ q)
    ∧ creatorHandler (some "Orders") (.dict ⟨none, some "chips"⟩) [] false false
      = ⟨⟨400, .err "Missing \x27orderId\x27 in request"⟩, [], []⟩
    ∧ (∃ p q, "Missing \x27orderId\x27 in request" = p ++ "orderId" ++ q)
    ∧ processorHandler (some "Orders") ⟨none⟩ [] false
      = (.ok ⟨400, .err "Invalid event payload"⟩, [])
    ∧ processorHandler (some "Orders") ⟨some ⟨none⟩⟩ [] false
      = (.ok ⟨400, .err "Invalid event payload"⟩, []) :=
  validation_failures (some "Orders") (by simp [badTable]) [] false false
    false () (.dict ⟨none, some "chips"⟩) ⟨none, some "chips"⟩ rfl (Or.inl rfl)

/-- C2: once a record exists for an `orderId`, a second creation
request with that `orderId` (any `item`) returns 409 with the table
exactly unchanged and nothing published. -/
theorem duplicate_creation_conflict (tn : Option String)
    (h : ¬ badTable tn) (body : ReqBody) (order : JsonVal) (oid : String)
    (hb : parseBody body = .ok order) (ho : order.orderId = some oid)
    (hne : oid ≠ "") (st : Store) (r : Rec) (hr : lookup st oid = some r)
    (be : Bool) :
    creatorHandler tn body st false be
      = ⟨⟨409, .err "Order already exists"⟩, st, []⟩ := by
  simp [creatorHandler, hb, ho, hne, hr, if_neg h]

/-- C2 witness: duplicate creation of order "123" with a different
item against a table already holding "123". -/
theorem duplicate_creation_conflict_witness :
    creatorHandler (some "Orders") (.dict ⟨some "123", some "cola"⟩)
        [("123", ⟨.NEW, "chips"⟩)] false false
      = ⟨⟨409, .err "Order already exists"⟩,
         [("123", ⟨.NEW, "chips"⟩)], []⟩ :=
  duplicate_creation_conflict (some "Orders") (by simp [badTable])
    (.dict ⟨some "123", some "cola"⟩) ⟨some "123", some "cola"⟩ "123"
    rfl rfl (by simp) [("123", ⟨.NEW, "chips"⟩)] ⟨.NEW, "chips"⟩ rfl false

/-- C5: a valid creation request over an absent `orderId`, with store
and publish succeeding, returns 200 with body `orderId, NEW`, stores
the `NEW` record whose item defaults to "unknown" when absent, and
makes exactly one publish call with detail `orderId, item`, type
"OrderCreated" and source "serverless.snacks". -/
theorem creation_success (tn : Option String) (h : ¬ badTable tn)
    (body : ReqBody) (order : JsonVal) (oid : String)
    (hb : parseBody body = .ok order) (ho : order.orderId = some oid)
    (hne : oid ≠ "") (st : Store) (habs : lookup st oid = none) :
    creatorHandler tn body st false false
      = ⟨⟨200, .order oid .NEW⟩,
         insertRec st oid ⟨.NEW, order.item.getD "unknown"⟩,
         [⟨"serverless.snacks", "OrderCreated", oid,
           order.item.getD "unknown", "OrderEventBus"⟩]⟩
    ∧ lookup (creatorHandler tn body st false false).store oid
        = some ⟨.NEW, order.item.getD "unknown"⟩
    ∧ (creatorHandler tn body st false false).published.length = 1
    ∧ (order.item = none → order.item.getD "unknown" = "unknown") := by
  have hmain : creatorHandler tn body st false false
      = ⟨⟨200, .order oid .NEW⟩,
         insertRec st oid ⟨.NEW, order.item.getD "unknown"⟩,
         [⟨"serverless.snacks", "OrderCreated", oid,
           order.item.getD "unknown", "OrderEventBus"⟩]⟩ := by
    simp [creatorHandler, hb, ho, hne, habs, if_neg h]
  refine ⟨hmain, ?_, ?_, fun hi => by simp [hi]⟩
  · rw [hmain]
    exact lookup_insert_self st oid ⟨.NEW, order.item.getD "unknown"⟩
  · rw [hmain]
    rfl

/-- C5 witness: creating order "123" with item "chips" over an empty
table. -/
theorem creation_success_witness :
    creatorHandler (some "Orders") (.dict ⟨some "123", some "chips"⟩)
        [] false false
      = ⟨⟨200, .order "123" .NEW⟩,
         insertRec [] "123" ⟨.NEW, "chips"⟩,
         [⟨"serverless.snacks", "OrderCreated", "123", "chips",
           "OrderEventBus"⟩]⟩
    ∧ lookup (creatorHandler (some "Orders")
        (.dict ⟨some "123", some "chips"⟩) [] false false).store "123"
        = some ⟨.NEW, "chips"⟩
    ∧ (creatorHandler (some "Orders") (.dict ⟨some "123", some "chips"⟩)
        [] false false).published.length = 1
    ∧ ((some "chips" : Option String) = none →
        (some "chips" : Option String).getD "unknown" = "unknown") :=
  creation_success (some "Orders") (by simp [badTable])
    (.dict ⟨some "123", some "chips"⟩) ⟨some "123", some "chips"⟩ "123"
    rfl rfl (by simp) [] rfl

/-- C6: when the conditional insert succeeds but the publish fails,
the creator returns 502 — distinct from the 500 of a store fault —
and the `NEW` record is already in the table. -/
theorem publish_failure_gateway_error (tn : Option String)
    (h : ¬ badTable tn) (body : ReqBody) (order : JsonVal) (oid : String)
    (hb : parseBody body = .ok order) (ho : order.orderId = some oid)
    (hne : oid ≠ "") (st : Store) (habs : lookup st oid = none)
    (be2 : Bool) :
    creatorHandler tn body st false true
      = ⟨⟨502, .err "Failed to publish event"⟩,
         insertRec st oid ⟨.NEW, order.item.getD "unknown"⟩, []⟩
    ∧ lookup (creatorHandler tn body st false true).store oid
        = some ⟨.NEW, order.item.getD "unknown"⟩
    ∧ (creatorHandler tn body st true be2).resp.statusCode = 500
    ∧ (creatorHandler tn body st false true).resp.statusCode
        ≠ (creatorHandler tn body st true be2).resp.statusCode := by
  have hmain : creatorHandler tn body st false true
      = ⟨⟨502, .err "Failed to publish event"⟩,
         insertRec st oid ⟨.NEW, order.item.getD "unknown"⟩, []⟩ := by
    simp [creatorHandler, hb, ho, hne, habs, if_neg h]
  have hfault : (creatorHandler tn body st true be2).resp.statusCode = 500 := by
    simp [creatorHandler, hb, ho, hne, if_neg h]
  refine ⟨hmain, ?_, hfault, ?_⟩
  · rw [hmain]
    exact lookup_insert_self st oid ⟨.NEW, order.item.getD "unknown"⟩
  · rw [hmain, hfault]
    simp

/-- C6 witness: creating order "123" with the publish call failing. -/
theorem publish_failure_gateway_error_witness :
    creatorHandler (some "Orders") (.dict ⟨some "123", some "chips"⟩)
        [] false true
      = ⟨⟨502, .err "Failed to publish event"⟩,
         insertRec [] "123" ⟨.NEW, "chips"⟩, []⟩
    ∧ lookup (creatorHandler (some "Orders")
        (.dict ⟨some "123", some "chips"⟩) [] false true).store "123"
        = some ⟨.NEW, "chips"⟩
    ∧ (creatorHandler (some "Orders") (.dict ⟨some "123", some "chips"⟩)
        [] true false).resp.statusCode = 500
    ∧ (creatorHandler (some "Orders") (.dict ⟨some "123", some "chips"⟩)
        [] false true).resp.statusCode
        ≠ (creatorHandler (some "Orders")
            (.dict ⟨some "123", some "chips"⟩) [] true false).resp.statusCode :=
  publish_failure_gateway_error (some "Orders") (by simp [badTable])
    (.dict ⟨some "123", some "chips"⟩) ⟨some "123", some "chips"⟩ "123"
    rfl rfl (by simp) [] rfl false

/-- C3: a processing event for an `orderId` with no record raises (an
`Except.error`, never an `ok` response) whether the fault injected on
`update_item` is present or not, and the table is unchanged. -/
theorem process_unknown_order_raises (tn : Option String)
    (h : ¬ badTable tn) (ev : ProcEvent) (d : ProcDetail) (oid : String)
    (hd : ev.detail = some d) (ho : d.orderId = some oid)
    (hne : oid ≠ "") (st : Store) (habs : lookup st oid = none)
    (ue : Bool) :
    (∃ f, (processorHandler tn ev st ue).1 = Except.error f)
    ∧ (processorHandler tn ev st ue).2 = st := by
  cases ue <;>
    simp [processorHandler, eventOrderId, hd, ho, hne, habs, if_neg h]

/-- C3 witness: processing order "999" against an empty table. -/
theorem process_unknown_order_raises_witness :
    (∃ f, (processorHandler (some "Orders") ⟨some ⟨some "999"⟩⟩ [] false).1
        = Except.error f)
    ∧ (processorHandler (some "Orders") ⟨some ⟨some "999"⟩⟩ [] false).2
        = [] :=
  process_unknown_order_raises (some "Orders") (by simp [badTable])
    ⟨some ⟨some "999"⟩⟩ ⟨some "999"⟩ "999" rfl rfl (by simp) [] rfl false

/-- C4: re-processing an already-`PROCESSED` order succeeds again: the
handler raises no fault, returns 200 reporting `PROCESSED`, and leaves
the record exactly unchanged (still `PROCESSED`, same item). -/
theorem process_idempotent (tn : Option String) (h : ¬ badTable tn)
    (ev : ProcEvent) (d : ProcDetail) (oid : String)
    (hd : ev.detail = some d) (ho : d.orderId = some oid)
    (hne : oid ≠ "") (st : Store) (r : Rec)
    (hr : lookup st oid = some r) (hst : r.status = .PROCESSED) :
    (processorHandler tn ev st false).1
      = .ok ⟨200, .order oid .PROCESSED⟩
    ∧ lookup (processorHandler tn ev st false).2 oid = some r := by
  have hmain : processorHandler tn ev st false
      = (.ok ⟨200, .order oid .PROCESSED⟩,
         updateStatus st oid .PROCESSED) := by
    simp [processorHandler, eventOrderId, hd, ho, hne, hr, if_neg h]
  refine ⟨by rw [hmain], ?_⟩
  rw [hmain]
  show lookup (updateStatus st oid .PROCESSED) oid = some r
  rw [lookup_update, hr]
  obtain ⟨s, it⟩ := r
  cases hst
  rfl

/-- C4 witness: reprocessing order "123" whose record is already
`PROCESSED`. -/
theorem process_idempotent_witness :
    (processorHandler (some "Orders") ⟨some ⟨some "123"⟩⟩
        [("123", ⟨.PROCESSED, "chips"⟩)] false).1
      = .ok ⟨200, .order "123" .PROCESSED⟩
    ∧ lookup (processorHandler (some "Orders") ⟨some ⟨some "123"⟩⟩
        [("123", ⟨.PROCESSED, "chips"⟩)] false).2 "123"
      = some ⟨.PROCESSED, "chips"⟩ :=
  process_idempotent (some "Orders") (by simp [badTable])
    ⟨some ⟨some "123"⟩⟩ ⟨some "123"⟩ "123" rfl rfl (by simp)
    [("123", ⟨.PROCESSED, "chips"⟩)] ⟨.PROCESSED, "chips"⟩ rfl rfl

/-- A creator invocation never changes an existing record. -/
theorem creator_preserves_existing (tn : Option String) (b : ReqBody)
    (st : Store) (pe be : Bool) (id : String) (r : Rec)
    (hr : lookup st id = some r) :
    lookup (creatorHandler tn b st pe be).store id = some r := by
  rcases creator_store_shape tn b st pe be with hsh | ⟨oid, it, habs, hsh⟩
  · rw [hsh]; exact hr
  · rw [hsh]
    by_cases hid : oid = id
    · subst hid
      rw [habs] at hr
      exact absurd hr (by simp)
    · rw [lookup_insert_ne st oid id _ hid]
      exact hr

/-- A processor invocation never creates a record. -/
theorem processor_preserves_absent (tn : Option String) (ev : ProcEvent)
    (st : Store) (ue : Bool) (id : String)
    (habs : lookup st id = none) :
    lookup (processorHandler tn ev st ue).2 id = none := by
  rcases processor_store_shape tn ev st ue with hsh | ⟨oid, r, hr, hsh⟩
  · rw [hsh]; exact habs
  · rw [hsh]
    by_cases hid : oid = id
    · subst hid
      rw [habs] at hr
      exact absurd hr (by simp)
    · rw [lookup_update_ne st oid id _ hid]
      exact habs

/-- Inserting a fresh `NEW` record moves the phase of its key from 0
to 1 and touches no other key. -/
theorem phase_insert_new (st : Store) (oid : String) (it : String)
    (habs : lookup st oid = none) (id : String) :
    phase (insertRec st oid ⟨.NEW, it⟩) id = phase st id
    ∨ phase (insertRec st oid ⟨.NEW, it⟩) id = phase st id + 1 := by
  by_cases hid : oid = id
  · subst hid
    right
    rw [phase, phase, habs, lookup_insert_self]
  · left
    rw [phase, phase, lookup_insert_ne st oid id _ hid]

/-- Setting the status of an existing record to `PROCESSED` moves the
phase of its key from 1 or 2 to 2 and touches no other key. -/
theorem phase_update_processed (st : Store) (oid : String) (r : Rec)
    (hr : lookup st oid = some r) (id : String) :
    phase (updateStatus st oid .PROCESSED) id = phase st id
    ∨ phase (updateStatus st oid .PROCESSED) id = phase st id + 1 := by
  by_cases hid : oid = id
  · subst hid
    rw [phase, phase, hr, lookup_update, hr]
    cases hs : r.status
    · right; simp [hs]
    · left; simp [hs]
  · left
    rw [phase, phase, lookup_update_ne st oid id _ hid]

/-- C1: per `orderId`, the table follows the state machine
0 (absent) to 1 (`NEW`) to 2 (`PROCESSED`) and nothing else: any
invocation of either handler keeps the phase or advances it by exactly
one (no deletion, no backward move, no skip), the creator never
changes an existing record (`NEW` or `PROCESSED`), the processor never
creates a record, and a `PROCESSED` record is never changed by any
invocation. -/
theorem order_lifecycle (st : Store) (inv : Invocation) (id : String) :
    (phase (stepStore st inv) id = phase st id
      ∨ phase (stepStore st inv) id = phase st id + 1)
    ∧ (∀ tn b pe be r, lookup st id = some r →
        lookup (stepStore st (.create tn b pe be)) id = some r)
    ∧ (∀ tn ev ue, lookup st id = none →
        lookup (stepStore st (.process tn ev ue)) id = none)
    ∧ (∀ r, lookup st id = some r → r.status = .PROCESSED →
        lookup (stepStore st inv) id = some r) := by
  refine ⟨?_, ?_, ?_, ?_⟩
  · cases inv with
    | create tn b pe be =>
      simp only [stepStore]
      rcases creator_store_shape tn b st pe be with hsh | ⟨oid, it, habs, hsh⟩
      · rw [hsh]; left; rfl
      · rw [hsh]
        exact phase_insert_new st oid it habs id
    | process tn ev ue =>
      simp only [stepStore]
      rcases processor_store_shape tn ev st ue with hsh | ⟨oid, r, hr, hsh⟩
      · rw [hsh]; left; rfl
      · rw [hsh]
        exact phase_update_processed st oid r hr id
  · intro tn b pe be r hr
    exact creator_preserves_existing tn b st pe be id r hr
  · intro tn ev ue habs
    exact processor_preserves_absent tn ev st ue id habs
  · intro r hr hst
    cases inv with
    | create tn b pe be =>
      exact creator_preserves_existing tn b st pe be id r hr
    | process tn ev ue =>
      show lookup (processorHandler tn ev st ue).2 id = some r
      rcases processor_store_shape tn ev st ue with hsh | ⟨oid, r2, hr2, hsh⟩
      · rw [hsh]; exact hr
      · rw [hsh]
        by_cases hid : oid = id
        · subst hid
          rw [lookup_update, hr]
          obtain ⟨s, it⟩ := r
          cases hst
          rfl
        · rw [lookup_update_ne st oid id _ hid]
          exact hr

/-- C1 witness: a `PROCESSED` record for order "123" is unchanged by a
further processing invocation naming it. -/
theorem order_lifecycle_witness :
    lookup (stepStore [("123", ⟨.PROCESSED, "chips"⟩)]
        (.process (some "Orders") ⟨some ⟨some "123"⟩⟩ false)) "123"
      = some ⟨.PROCESSED, "chips"⟩ :=
  (order_lifecycle [("123", ⟨.PROCESSED, "chips"⟩)]
      (.process (some "Orders") ⟨some ⟨some "123"⟩⟩ false) "123").2.2.2
    ⟨.PROCESSED, "chips"⟩ rfl rfl

end SnacksSpec
